import Mathlib

/-!
Verification of the EgoMimic/mimicplay core logic: min-max normalization
utilities, the evaluation metric accumulator, the robot/hand modality routing
of the ACT and ACTSP algorithm classes, the chunked-inference action cache,
and the VAE loss computation (KL divergence and masked L1 reconstruction).

Numeric tensor arithmetic is modelled over the rationals where the source
performs only field operations, and over the reals where it uses the
exponential function (the KL divergence).  Tensors are modelled as nested
lists or as functions out of Fin types, matching the axis structure of the
source arrays.
-/

/-! ## simarUtils: min-max normalization -/

/-- Embeds general_norm from simarUtils.py at scalar inputs with the optional
array-min/array-max arguments supplied explicitly (the Python defaults fill
them from the array itself):
(max_val - min_val) * ((array - arr_min) / (arr_max - arr_min)) + min_val. -/
def general_norm (array min_val max_val arr_min arr_max : ℚ) : ℚ :=
  (max_val - min_val) * ((array - arr_min) / (arr_max - arr_min)) + min_val

/-- Embeds general_unnorm from simarUtils.py at scalar inputs:
((array - min_val) / (max_val - min_val)) * (orig_max - orig_min) + orig_min. -/
def general_unnorm (array orig_min orig_max min_val max_val : ℚ) : ℚ :=
  ((array - min_val) / (max_val - min_val)) * (orig_max - orig_min) + orig_min

/-! ## val_utils: metric accumulator -/

/-- The metrics accumulator of evaluate_high_level_policy: two growing lists
of per-trajectory error vectors. -/
structure Metrics where
  paired_mse : List (List ℚ)
  final_mse : List (List ℚ)
deriving DecidableEq, Repr

/-- Elementwise np.square((pred - actions) * 100) on one timestep row. -/
def scaledSqErr (pred gt : List ℚ) : List ℚ :=
  List.zipWith (fun p a => ((p - a) * 100) * ((p - a) * 100)) pred gt

/-- Columnwise sum of a list of equal-length rows (np.sum over axis 0). -/
def sumAxis0 : List (List ℚ) → List ℚ
  | [] => []
  | [r] => r
  | r :: rs => List.zipWith (· + ·) r (sumAxis0 rs)

/-- np.mean over axis 0 of a (T, D) array: columnwise sum divided by T. -/
def meanAxis0 (xs : List (List ℚ)) : List ℚ :=
  (sumAxis0 xs).map (· / (xs.length : ℚ))

/-- Embeds add_metrics from val_utils.py: appends the per-axis mean of the
squared scaled paired errors and the squared scaled last-step error. -/
def add_metrics (metrics : Metrics) (actions pred_values : List (List ℚ)) :
    Metrics :=
  let paired := meanAxis0 (List.zipWith scaledSqErr pred_values actions)
  let final := scaledSqErr (pred_values.getLastD []) (actions.getLastD [])
  ⟨metrics.paired_mse ++ [paired], metrics.final_mse ++ [final]⟩

/-! ## act.py: modality routing (ACT._modality_check, ACTSP forward passes) -/

/-- The slice of a training batch that the modality routing logic inspects:
the per-sample type tags (0 = robot, 1 = hand), the set of observation keys
present in batch obs, and the action tensor (batch x time x action dim). -/
structure Batch where
  ty : List ℕ
  obs : List String
  actions : List (List (List ℚ))
deriving DecidableEq, Repr

/-- The configuration fields of ACTSP consulted by the forward passes. -/
structure ACTSPConfig where
  camera_keys : List String
  proprio_keys : List String
  proprio_keys_hand : List String
deriving DecidableEq, Repr

/-- Embeds ACT._modality_check: all tags equal 0 resolves robot, all equal 1
resolves hand, anything else raises (the spec names this condition
InconsistentModalityError). -/
def modality_check (ty : List ℕ) : Except String String :=
  if ty.all (· == 0) then Except.ok "robot"
  else if ty.all (· == 1) then Except.ok "hand"
  else Except.error
    "Got mixed modalities, current implementation expects either robot or hand data only."

/-- The argument record of the single external policy invocation site in the
ACTSP forward passes: the selected camera keys, the selected proprioceptive
keys, the action tensor as it stands at the call (after any hand truncation),
and the modality string passed to the model. -/
structure PolicyCall where
  cam_keys : List String
  proprio_keys : List String
  actions : List (List (List ℚ))
  modality : String
deriving DecidableEq, Repr

/-- Truncation of the action tensor's last axis to its first 3 components,
the batch["actions"][:, :, :3] hack applied on the hand path. -/
def truncateActions (actions : List (List (List ℚ))) : List (List (List ℚ)) :=
  actions.map (fun sample => sample.map (fun step => step.take 3))

/-- Embeds ACTSP._forward_training up to the external policy invocation:
resolve the modality from the type tags (raising on mixed tags before the
model is reached), truncate actions on the hand path, select camera and
proprioceptive keys per modality, and return the policy-call record.
An error value means the exception propagated before the policy was invoked;
an ok value carries exactly the data handed to the policy. -/
def ACTSP_forward_training (cfg : ACTSPConfig) (batch : Batch) :
    Except String PolicyCall :=
  match modality_check batch.ty with
  | Except.error e => Except.error e
  | Except.ok modality =>
    let actions :=
      if modality = "hand" then truncateActions batch.actions else batch.actions
    let cam_keys :=
      if modality = "robot" then cfg.camera_keys else cfg.camera_keys.take 1
    let proprio_keys :=
      if modality = "hand" then cfg.proprio_keys_hand else cfg.proprio_keys
    Except.ok ⟨cam_keys, proprio_keys, actions, modality⟩

/-- Embeds ACTSP.forward_eval up to the external policy invocation: the
modality check on the type tags still runs first (and raises on mixed tags),
but its result is then overwritten by probing the batch observation keys for
"right_wrist_img" (present resolves robot, absent resolves hand); key
selection and hand action truncation then follow the probed modality. -/
def ACTSP_forward_eval (cfg : ACTSPConfig) (batch : Batch) :
    Except String PolicyCall :=
  match modality_check batch.ty with
  | Except.error e => Except.error e
  | Except.ok _ =>
    let modality := if "right_wrist_img" ∈ batch.obs then "robot" else "hand"
    let actions :=
      if modality = "hand" then truncateActions batch.actions else batch.actions
    let cam_keys :=
      if modality = "robot" then cfg.camera_keys else cfg.camera_keys.take 1
    let proprio_keys :=
      if modality = "hand" then cfg.proprio_keys_hand else cfg.proprio_keys
    Except.ok ⟨cam_keys, proprio_keys, actions, modality⟩

/-! ## act.py: chunked-inference action cache (ACT.get_action / ACT.reset) -/

/-- The mutable inference state of an ACT instance: the step counter and the
cached predicted action chunk (a_hat_store), a chunk being modelled as a
function from timestep index to action. -/
structure ACTState (α : Type) where
  step_counter : ℕ
  a_hat_store : Option (ℕ → α)

/-- The inference state right after _create_networks: counter 0, no cache. -/
def actInit {α : Type} : ACTState α := ⟨0, none⟩

/-- Embeds ACT.reset: only the step counter is cleared, the cached chunk is
kept (it is overwritten on the next call anyway, since step 0 re-invokes). -/
def ACT_reset {α : Type} (s : ACTState α) : ACTState α :=
  { s with step_counter := 0 }

/-- Embeds one call of ACT.get_action.  The chunk argument stands for the
policy forward pass on the current observation; it is consulted only when
step_counter mod query_frequency is 0, in which case it becomes the new
a_hat_store.  Returns the emitted action (none models the Python TypeError
of indexing a missing cache, unreachable from a reset state), the successor
state with the counter incremented, and whether the policy was invoked. -/
def get_action {α : Type} (query_frequency : ℕ) (chunk : ℕ → α)
    (s : ACTState α) : Option α × ACTState α × Bool :=
  let invoke := s.step_counter % query_frequency == 0
  let store := if invoke then some chunk else s.a_hat_store
  match store with
  | none => (none, { s with step_counter := s.step_counter + 1 }, invoke)
  | some c =>
    (some (c (s.step_counter % query_frequency)),
     ⟨s.step_counter + 1, some c⟩, invoke)

/-- The state after n consecutive get_action calls from state s, the call at
counter k seeing the policy output chunks k (chunks abstracts how the
observation, and hence the predicted chunk, varies across calls). -/
def runFrom {α : Type} (query_frequency : ℕ) (chunks : ℕ → ℕ → α) :
    ℕ → ACTState α → ACTState α
  | 0, s => s
  | n + 1, s => (get_action query_frequency (chunks n) (runFrom query_frequency chunks n s)).2.1

/-! ## act.py: KL divergence and loss assembly -/

/-- Embeds the elementwise term of ACT.kl_divergence:
klds = -0.5 * (1 + logvar - mu^2 - exp(logvar)). -/
noncomputable def klds (B D : ℕ) (mu logvar : Fin B → Fin D → ℝ)
    (b : Fin B) (d : Fin D) : ℝ :=
  -(1 / 2 : ℝ) * (1 + logvar b d - mu b d * mu b d - Real.exp (logvar b d))

/-- Embeds ACT.kl_divergence on a (B, D) latent (the 2-dimensional path; the
source's defensive 4-dimensional reshape is a view producing exactly this
shape): returns total_kld (sum over dimensions then mean over the batch),
dimension_wise_kld (mean over the batch per dimension), and mean_kld (mean
over dimensions then over the batch).  The source asserts B is nonzero. -/
noncomputable def kl_divergence (B D : ℕ) (mu logvar : Fin B → Fin D → ℝ) :
    ℝ × (Fin D → ℝ) × ℝ :=
  (((Finset.univ : Finset (Fin B)).sum fun b =>
      ((Finset.univ : Finset (Fin D)).sum fun d => klds B D mu logvar b d)) / B,
   fun d => (((Finset.univ : Finset (Fin B)).sum fun b => klds B D mu logvar b d) / B),
   ((Finset.univ : Finset (Fin B)).sum fun b =>
      (((Finset.univ : Finset (Fin D)).sum fun d => klds B D mu logvar b d) / D)) / B)

/-- Embeds the reconstruction loss of ACT._forward_training: the elementwise
L1 distance between ground truth and prediction, zeroed at padded timesteps
(all_l1 * ~is_pad), then averaged over every element of the (B, T, D) tensor. -/
noncomputable def reconstruction_loss (B T D : ℕ)
    (actions a_hat : Fin B → Fin T → Fin D → ℝ)
    (is_pad : Fin B → Fin T → Bool) : ℝ :=
  (((Finset.univ : Finset (Fin B)).sum fun b =>
    ((Finset.univ : Finset (Fin T)).sum fun t =>
      ((Finset.univ : Finset (Fin D)).sum fun d =>
        |actions b t d - a_hat b t d| * (if is_pad b t then 0 else 1)))) /
    ((B : ℝ) * T * D))

/-- Embeds ACT._compute_losses: given the KL weight and the two reported
losses, returns (recons_loss, kl_loss, action_loss) with
action_loss = recons_loss + kl_weight * kl_loss. -/
noncomputable def compute_losses (kl_weight kl_loss recons_loss : ℝ) :
    ℝ × ℝ × ℝ :=
  (recons_loss, kl_loss, recons_loss + kl_weight * kl_loss)

/-! ## Theorems -/

/-- C10: a batch whose type tensor is empty passes the modality check with
result "robot" and ACTSP training routing proceeds without raising: both
vacuous all-tests are true and the robot branch is taken first, so the
mixed-modality error branch is unreachable for empty tags. -/
theorem modality_check_empty_is_robot (cfg : ACTSPConfig) (obs : List String)
    (acts : List (List (List ℚ))) :
    modality_check ([] : List ℕ) = Except.ok "robot" ∧
    ACTSP_forward_training cfg ⟨[], obs, acts⟩ =
      Except.ok ⟨cfg.camera_keys, cfg.proprio_keys, acts, "robot"⟩ := by
  constructor <;> rfl

/-- C9: with ground truth ten steps of [0,0,0] and predictions ten steps of
[1,0,0], add_metrics appends paired_mse = [10000, 0, 0] (error scaled by 100
before squaring, averaged over the 10 steps) and final_mse = [10000, 0, 0]
(squared scaled error of the last step). -/
theorem add_metrics_uniform_offset :
    add_metrics ⟨[], []⟩ (List.replicate 10 [0, 0, 0])
      (List.replicate 10 [1, 0, 0]) =
    ⟨[[10000, 0, 0]], [[10000, 0, 0]]⟩ := by
  simp [add_metrics, meanAxis0, sumAxis0, scaledSqErr, List.replicate, List.zipWith]
  norm_num

/-- C2 counterexample: the round trip as the claim spells it, with
general_unnorm receiving (-1, 1, lo, hi) in the same positional order as
general_norm, does not return x: at x = 1 on [lo, hi] = [0, 2] it returns
-1, an exact discrepancy of 2, far beyond floating-point tolerance. -/
theorem general_unnorm_norm_as_claimed_fails :
    (0 : ℚ) < 2 ∧ (0 : ℚ) ≤ 1 ∧ (1 : ℚ) ≤ 2 ∧
    general_unnorm (general_norm 1 (-1) 1 0 2) (-1) 1 0 2 ≠ 1 := by
  refine ⟨by norm_num, by norm_num, by norm_num, ?_⟩
  norm_num [general_norm, general_unnorm]

/-- C2 amended: the round trip holds with the unnormalization arguments in
their declared roles, general_unnorm(y, lo, hi, -1, 1): for lo < hi and x in
[lo, hi], general_unnorm (general_norm x (-1) 1 lo hi) lo hi (-1) 1 = x,
exactly over the rationals. -/
theorem general_norm_unnorm_roundtrip (x lo hi : ℚ) (hlt : lo < hi)
    (hx1 : lo ≤ x) (hx2 : x ≤ hi) :
    general_unnorm (general_norm x (-1) 1 lo hi) lo hi (-1) 1 = x := by
  have h : hi - lo ≠ 0 := sub_ne_zero.mpr (ne_of_gt hlt)
  unfold general_norm general_unnorm
  field_simp
  ring

/-- Witness for the round-trip theorem at x = 1, lo = 0, hi = 2. -/
theorem general_norm_unnorm_roundtrip_witness :
    (0 : ℚ) < 2 ∧ (0 : ℚ) ≤ 1 ∧ (1 : ℚ) ≤ 2 ∧
    general_unnorm (general_norm 1 (-1) 1 0 2) 0 2 (-1) 1 = 1 :=
  ⟨by norm_num, by norm_num, by norm_num,
   general_norm_unnorm_roundtrip 1 0 2 (by norm_num) (by norm_num) (by norm_num)⟩

/-- C7: for a standard-normal latent (mu and logvar identically zero) over
any nonzero batch size B and any latent dimension D, the batch-mean total KL
divergence returned by kl_divergence is exactly 0. -/
theorem kl_divergence_zero_latent (B D : ℕ) (hB : B ≠ 0) :
    (kl_divergence B D (fun _ _ => 0) (fun _ _ => 0)).1 = 0 := by
  simp [kl_divergence, klds, Real.exp_zero]

/-- Witness for the zero-latent KL theorem at B = 1, D = 1. -/
theorem kl_divergence_zero_latent_witness :
    (1 : ℕ) ≠ 0 ∧
    (kl_divergence 1 1 (fun _ _ => 0) (fun _ _ => 0)).1 = 0 :=
  ⟨by decide, kl_divergence_zero_latent 1 1 (by decide)⟩

/-! ## Helper lemmas -/

/-- If every type tag equals 0 the modality check resolves robot. -/
lemma modality_check_all_zero (ty : List ℕ) (h : ty.all (· == 0) = true) :
    modality_check ty = Except.ok "robot" := by
  simp [modality_check, h]

/-- If the tag list is nonempty and every tag equals 1 the modality check
resolves hand (the head rules out the robot branch). -/
lemma modality_check_all_one (ty : List ℕ) (hne : ty ≠ [])
    (h1 : ty.all (· == 1) = true) :
    modality_check ty = Except.ok "hand" := by
  cases ty with
  | nil => exact absurd rfl hne
  | cons x xs =>
    have hx : x = 1 := by
      have := List.all_eq_true.mp h1 x (List.mem_cons_self x xs)
      simpa using this
    subst hx
    have hxs : ¬ ((1 :: xs).all (· == 0) = true) := by
      simp [List.all_cons]
    simp [modality_check, hxs, h1]

/-- ACTSP training routing on an all-zero tag batch. -/
lemma fwdtrain_all_zero (cfg : ACTSPConfig) (batch : Batch)
    (h : batch.ty.all (· == 0) = true) :
    ACTSP_forward_training cfg batch =
      Except.ok ⟨cfg.camera_keys, cfg.proprio_keys, batch.actions, "robot"⟩ := by
  unfold ACTSP_forward_training
  rw [modality_check_all_zero batch.ty h]
  rfl

/-- ACTSP training routing on a nonempty all-one tag batch. -/
lemma fwdtrain_all_one (cfg : ACTSPConfig) (batch : Batch)
    (hne : batch.ty ≠ []) (h1 : batch.ty.all (· == 1) = true) :
    ACTSP_forward_training cfg batch =
      Except.ok ⟨cfg.camera_keys.take 1, cfg.proprio_keys_hand,
                 truncateActions batch.actions, "hand"⟩ := by
  unfold ACTSP_forward_training
  rw [modality_check_all_one batch.ty hne h1]
  rfl

/-- The batch-mean total KL divergence of an identically zero latent is 0. -/
lemma kl_total_zero (B D : ℕ) :
    (kl_divergence B D (fun _ _ => 0) (fun _ _ => 0)).1 = 0 := by
  simp [kl_divergence, klds, Real.exp_zero]

/-- A get_action call at a counter that is a multiple of the query frequency
invokes the policy, overwrites the cache, and emits chunk index 0. -/
lemma get_action_invoke {α : Type} (qf : ℕ) (chunk : ℕ → α) (s : ACTState α)
    (h : s.step_counter % qf = 0) :
    get_action qf chunk s =
      (some (chunk 0), ⟨s.step_counter + 1, some chunk⟩, true) := by
  simp [get_action, h]

/-- A get_action call at a counter that is not a multiple of the query
frequency reuses the cached chunk without invoking the policy. -/
lemma get_action_cached {α : Type} (qf : ℕ) (chunk c : ℕ → α) (s : ACTState α)
    (h : s.step_counter % qf ≠ 0) (hs : s.a_hat_store = some c) :
    get_action qf chunk s =
      (some (c (s.step_counter % qf)), ⟨s.step_counter + 1, some c⟩, false) := by
  simp [get_action, h, hs]

/-- Subtracting one does not change the quotient when the remainder is
nonzero. -/
lemma pred_div_eq_div (n qf : ℕ) (h : n % qf ≠ 0) : (n - 1) / qf = n / qf := by
  cases n with
  | zero => simp at h
  | succ m =>
    have hdvd : ¬ qf ∣ (m + 1) := by
      intro hd
      exact h (Nat.mod_eq_zero_of_dvd hd)
    rw [Nat.succ_sub_one, Nat.succ_div, if_neg hdvd, add_zero]

/-- Invariant of the inference loop from a reset state: after n calls the
counter is n and the cache holds the chunk of the most recent invocation. -/
lemma runFrom_reset_invariant {α : Type} (qf : ℕ)
    (chunks : ℕ → ℕ → α) (s0 : ACTState α) (n : ℕ) :
    (runFrom qf chunks n (ACT_reset s0)).step_counter = n ∧
      (runFrom qf chunks n (ACT_reset s0)).a_hat_store =
        (if n = 0 then s0.a_hat_store
         else some (chunks (qf * ((n - 1) / qf)))) := by
  induction n with
  | zero => simp [runFrom, ACT_reset]
  | succ m ih =>
    obtain ⟨ihc, ihs⟩ := ih
    by_cases hm : m % qf = 0
    · have hstep := get_action_invoke qf (chunks m)
        (runFrom qf chunks m (ACT_reset s0)) (by rw [ihc]; exact hm)
      have h2 : qf * (m / qf) = m := Nat.mul_div_cancel' (Nat.dvd_of_mod_eq_zero hm)
      constructor
      · show (get_action qf (chunks m)
            (runFrom qf chunks m (ACT_reset s0))).2.1.step_counter = m + 1
        rw [hstep, ihc]
      · show (get_action qf (chunks m)
            (runFrom qf chunks m (ACT_reset s0))).2.1.a_hat_store = _
        rw [hstep]
        simp [Nat.add_sub_cancel, h2]
    · have hm0 : m ≠ 0 := by
        intro h
        subst h
        exact hm (Nat.zero_mod qf)
      have hsome : (runFrom qf chunks m (ACT_reset s0)).a_hat_store =
          some (chunks (qf * ((m - 1) / qf))) := by rw [ihs, if_neg hm0]
      have hstep := get_action_cached qf (chunks m) (chunks (qf * ((m - 1) / qf)))
        (runFrom qf chunks m (ACT_reset s0)) (by rw [ihc]; exact hm) hsome
      constructor
      · show (get_action qf (chunks m)
            (runFrom qf chunks m (ACT_reset s0))).2.1.step_counter = m + 1
        rw [hstep, ihc]
      · show (get_action qf (chunks m)
            (runFrom qf chunks m (ACT_reset s0))).2.1.a_hat_store = _
        rw [hstep]
        simp [Nat.add_sub_cancel, pred_div_eq_div m qf hm]

/-! ## Claim theorems (continued) -/

/-- C1: from any reset state, after n get_action calls the step counter is n;
the call at counter n invokes the policy exactly when n mod query_frequency
is 0, returns the timestep at index n mod query_frequency of the chunk cached
at the most recent invocation (call qf * (n / qf), so the model is not
re-invoked for the rest of each run of query_frequency consecutive calls and
their outputs all come from that one cached chunk), and then increments the
counter; at n = 0 this is exactly the behaviour of step 0, for any state the
reset was applied to. -/
theorem ACT_chunked_inference_cache {α : Type} (qf : ℕ) (hqf : 0 < qf)
    (chunks : ℕ → ℕ → α) (s0 : ACTState α) (n : ℕ) :
    (runFrom qf chunks n (ACT_reset s0)).step_counter = n ∧
    (get_action qf (chunks n) (runFrom qf chunks n (ACT_reset s0))).2.2 =
      (n % qf == 0) ∧
    (get_action qf (chunks n) (runFrom qf chunks n (ACT_reset s0))).1 =
      some (chunks (qf * (n / qf)) (n % qf)) ∧
    (get_action qf (chunks n)
      (runFrom qf chunks n (ACT_reset s0))).2.1.step_counter = n + 1 := by
  obtain ⟨hc, hs⟩ := runFrom_reset_invariant qf chunks s0 n
  by_cases hn : n % qf = 0
  · have hstep := get_action_invoke qf (chunks n)
      (runFrom qf chunks n (ACT_reset s0)) (by rw [hc]; exact hn)
    have h2 : qf * (n / qf) = n := Nat.mul_div_cancel' (Nat.dvd_of_mod_eq_zero hn)
    refine ⟨hc, ?_, ?_, ?_⟩
    · rw [hstep, hn]
      rfl
    · rw [hstep, h2, hn]
    · rw [hstep, hc]
  · have hn0 : n ≠ 0 := by
      intro h
      subst h
      exact hn (Nat.zero_mod qf)
    have hsome : (runFrom qf chunks n (ACT_reset s0)).a_hat_store =
        some (chunks (qf * ((n - 1) / qf))) := by rw [hs, if_neg hn0]
    have hstep := get_action_cached qf (chunks n) (chunks (qf * ((n - 1) / qf)))
      (runFrom qf chunks n (ACT_reset s0)) (by rw [hc]; exact hn) hsome
    refine ⟨hc, ?_, ?_, ?_⟩
    · rw [hstep]
      simp [hn]
    · rw [hstep, hc, pred_div_eq_div n qf hn]
    · rw [hstep, hc]

/-- Witness for the chunked-inference theorem: query frequency 2, the chunk
of invocation i carrying values i * 10 + timestep, observed at call 3. -/
theorem ACT_chunked_inference_cache_witness :
    0 < 2 ∧
    ((runFrom 2 (fun i j => i * 10 + j) 3 (ACT_reset (actInit : ACTState ℕ))).step_counter = 3 ∧
     (get_action 2 ((fun i j => i * 10 + j) 3)
       (runFrom 2 (fun i j => i * 10 + j) 3 (ACT_reset (actInit : ACTState ℕ)))).2.2 =
       (3 % 2 == 0) ∧
     (get_action 2 ((fun i j => i * 10 + j) 3)
       (runFrom 2 (fun i j => i * 10 + j) 3 (ACT_reset (actInit : ACTState ℕ)))).1 =
       some ((fun i j => i * 10 + j) (2 * (3 / 2)) (3 % 2)) ∧
     (get_action 2 ((fun i j => i * 10 + j) 3)
       (runFrom 2 (fun i j => i * 10 + j) 3
         (ACT_reset (actInit : ACTState ℕ)))).2.1.step_counter = 3 + 1) :=
  ⟨by decide, ACT_chunked_inference_cache 2 (by decide) (fun i j => i * 10 + j) actInit 3⟩

/-- C4: a batch whose type tags are neither uniformly 0 nor uniformly 1
(mixed or unrecognized values) makes ACTSP training raise the inconsistent
modality error inside the modality check, so the run never reaches the
external policy invocation (an ok policy-call record is never produced). -/
theorem ACTSP_training_mixed_raises (cfg : ACTSPConfig) (batch : Batch)
    (h0 : batch.ty.all (· == 0) = false) (h1 : batch.ty.all (· == 1) = false) :
    ACTSP_forward_training cfg batch = Except.error
      "Got mixed modalities, current implementation expects either robot or hand data only." := by
  simp [ACTSP_forward_training, modality_check, h0, h1]

/-- Witness for the mixed-modality theorem on tags [0, 1]. -/
theorem ACTSP_training_mixed_raises_witness :
    (([0, 1] : List ℕ).all (· == 0) = false) ∧
    (([0, 1] : List ℕ).all (· == 1) = false) ∧
    ACTSP_forward_training
      ⟨["front_img_1", "right_wrist_img"], ["joint_positions"], ["hand_loc"]⟩
      ⟨[0, 1], ["front_img_1", "right_wrist_img"], [[[1, 2, 3, 4]]]⟩ =
      Except.error
        "Got mixed modalities, current implementation expects either robot or hand data only." :=
  ⟨rfl, rfl, ACTSP_training_mixed_raises _ _ rfl rfl⟩

/-- C6: a batch with uniform type 0 resolves robot and ACTSP training selects
the full camera-key list and the full robot proprioceptive-key list, both
unmodified, with the action tensor untouched. -/
theorem ACTSP_training_uniform_robot (cfg : ACTSPConfig) (batch : Batch)
    (h : batch.ty.all (· == 0) = true) :
    modality_check batch.ty = Except.ok "robot" ∧
    ACTSP_forward_training cfg batch =
      Except.ok ⟨cfg.camera_keys, cfg.proprio_keys, batch.actions, "robot"⟩ :=
  ⟨modality_check_all_zero _ h, fwdtrain_all_zero cfg batch h⟩

/-- Witness for the uniform-robot routing theorem on tags [0, 0]. -/
theorem ACTSP_training_uniform_robot_witness :
    (([0, 0] : List ℕ).all (· == 0) = true) ∧
    (modality_check [0, 0] = Except.ok "robot" ∧
     ACTSP_forward_training
       ⟨["front_img_1", "right_wrist_img"], ["joint_positions"], ["hand_loc"]⟩
       ⟨[0, 0], ["front_img_1", "right_wrist_img"], [[[1, 2, 3, 4]]]⟩ =
       Except.ok ⟨["front_img_1", "right_wrist_img"], ["joint_positions"],
                  [[[1, 2, 3, 4]]], "robot"⟩) :=
  ⟨rfl, ACTSP_training_uniform_robot
    ⟨["front_img_1", "right_wrist_img"], ["joint_positions"], ["hand_loc"]⟩
    ⟨[0, 0], ["front_img_1", "right_wrist_img"], [[[1, 2, 3, 4]]]⟩ rfl⟩

/-- C5: a batch with nonempty uniform type 1 resolves hand and ACTSP training
selects only the first entry of the camera-key list, the hand-specific
proprioceptive-key list, and truncates the action tensor's last axis to its
first 3 components, while an all-zero batch keeps its actions at full
dimensionality. -/
theorem ACTSP_training_uniform_hand (cfg : ACTSPConfig) (batch batch' : Batch)
    (hne : batch.ty ≠ []) (h1 : batch.ty.all (· == 1) = true)
    (h0 : batch'.ty.all (· == 0) = true) :
    modality_check batch.ty = Except.ok "hand" ∧
    ACTSP_forward_training cfg batch =
      Except.ok ⟨cfg.camera_keys.take 1, cfg.proprio_keys_hand,
                 truncateActions batch.actions, "hand"⟩ ∧
    ACTSP_forward_training cfg batch' =
      Except.ok ⟨cfg.camera_keys, cfg.proprio_keys, batch'.actions, "robot"⟩ :=
  ⟨modality_check_all_one _ hne h1, fwdtrain_all_one cfg batch hne h1,
   fwdtrain_all_zero cfg batch' h0⟩

/-- Witness for the uniform-hand routing theorem: tags [1, 1] against a
4-dimensional action tensor, with an all-zero companion batch. -/
theorem ACTSP_training_uniform_hand_witness :
    (([1, 1] : List ℕ) ≠ []) ∧
    (([1, 1] : List ℕ).all (· == 1) = true) ∧
    (([0] : List ℕ).all (· == 0) = true) ∧
    (modality_check [1, 1] = Except.ok "hand" ∧
     ACTSP_forward_training
       ⟨["front_img_1", "right_wrist_img"], ["joint_positions"], ["hand_loc"]⟩
       ⟨[1, 1], ["front_img_1"], [[[1, 2, 3, 4], [5, 6, 7, 8]]]⟩ =
       Except.ok ⟨["front_img_1"], ["hand_loc"],
                  [[[1, 2, 3], [5, 6, 7]]], "hand"⟩ ∧
     ACTSP_forward_training
       ⟨["front_img_1", "right_wrist_img"], ["joint_positions"], ["hand_loc"]⟩
       ⟨[0], ["front_img_1", "right_wrist_img"], [[[1, 2, 3, 4]]]⟩ =
       Except.ok ⟨["front_img_1", "right_wrist_img"], ["joint_positions"],
                  [[[1, 2, 3, 4]]], "robot"⟩) := by
  refine ⟨by decide, rfl, rfl, ?_⟩
  have h := ACTSP_training_uniform_hand
    ⟨["front_img_1", "right_wrist_img"], ["joint_positions"], ["hand_loc"]⟩
    ⟨[1, 1], ["front_img_1"], [[[1, 2, 3, 4], [5, 6, 7, 8]]]⟩
    ⟨[0], ["front_img_1", "right_wrist_img"], [[[1, 2, 3, 4]]]⟩
    (by decide) rfl rfl
  simpa [truncateActions] using h

/-- C3 counterexample: two evaluation batches identical except in their type
tags, both containing the "right_wrist_img" camera key: the uniformly tagged
one resolves robot via the probe, but the mixed-tag one raises in the
modality check that still runs first, so the type tag does affect the
evaluation-time outcome. -/
theorem ACTSP_eval_type_tag_affects_outcome :
    ACTSP_forward_eval
      ⟨["front_img_1", "right_wrist_img"], ["joint_positions"], ["hand_loc"]⟩
      ⟨[0, 1], ["front_img_1", "right_wrist_img"], [[[1, 2, 3, 4]]]⟩ =
      Except.error
        "Got mixed modalities, current implementation expects either robot or hand data only." ∧
    ACTSP_forward_eval
      ⟨["front_img_1", "right_wrist_img"], ["joint_positions"], ["hand_loc"]⟩
      ⟨[0, 0], ["front_img_1", "right_wrist_img"], [[[1, 2, 3, 4]]]⟩ =
      Except.ok ⟨["front_img_1", "right_wrist_img"], ["joint_positions"],
                 [[[1, 2, 3, 4]]], "robot"⟩ := by
  constructor <;> rfl

/-- C3 amended: provided the type tags pass the modality check (uniformly 0
or uniformly 1), ACTSP evaluation resolves the modality used for key
selection, action truncation, and the model call solely by probing for the
"right_wrist_img" key (present resolves robot, absent resolves hand),
overriding the tag-derived modality, so among such batches the tag value
never changes the outcome. -/
theorem ACTSP_eval_probe_resolves (cfg : ACTSPConfig) (batch : Batch)
    (h : batch.ty.all (· == 0) = true ∨ batch.ty.all (· == 1) = true) :
    ACTSP_forward_eval cfg batch =
      Except.ok ⟨(if "right_wrist_img" ∈ batch.obs then cfg.camera_keys
                  else cfg.camera_keys.take 1),
                 (if "right_wrist_img" ∈ batch.obs then cfg.proprio_keys
                  else cfg.proprio_keys_hand),
                 (if "right_wrist_img" ∈ batch.obs then batch.actions
                  else truncateActions batch.actions),
                 (if "right_wrist_img" ∈ batch.obs then "robot" else "hand")⟩ := by
  have hmc : ∃ m, modality_check batch.ty = Except.ok m := by
    by_cases h0 : batch.ty.all (· == 0) = true
    · exact ⟨"robot", modality_check_all_zero _ h0⟩
    · rcases h with h | h1
      · exact absurd h h0
      · have hne : batch.ty ≠ [] := by
          intro hnil
          apply h0
          rw [hnil]
          rfl
        exact ⟨"hand", modality_check_all_one _ hne h1⟩
  obtain ⟨m, hm⟩ := hmc
  unfold ACTSP_forward_eval
  rw [hm]
  by_cases hp : "right_wrist_img" ∈ batch.obs
  · simp [hp]
  · simp [hp]

/-- Witness for the probe-resolution theorem: a uniformly hand-tagged batch
without the wrist camera resolves hand and has its actions truncated. -/
theorem ACTSP_eval_probe_resolves_witness :
    ((([1, 1] : List ℕ).all (· == 0) = true) ∨
     (([1, 1] : List ℕ).all (· == 1) = true)) ∧
    ACTSP_forward_eval
      ⟨["front_img_1", "right_wrist_img"], ["joint_positions"], ["hand_loc"]⟩
      ⟨[1, 1], ["front_img_1"], [[[1, 2, 3, 4]]]⟩ =
      Except.ok ⟨["front_img_1"], ["hand_loc"], [[[1, 2, 3]]], "hand"⟩ := by
  refine ⟨Or.inr rfl, ?_⟩
  have h := ACTSP_eval_probe_resolves
    ⟨["front_img_1", "right_wrist_img"], ["joint_positions"], ["hand_loc"]⟩
    ⟨[1, 1], ["front_img_1"], [[[1, 2, 3, 4]]]⟩ (Or.inr rfl)
  simpa [truncateActions] using h

/-- C8: in the synthetic scenario of 2 samples, chunk length 5, action
dimension 3, predictions equal to ground truth, no padded timesteps, and an
identically zero latent (the base ACT training path, whose loss computation
does not consult the uniform type tag), the reconstruction loss is exactly
0, the KL loss is exactly 0, and the assembled action loss (reconstruction
plus the configured KL weight times KL) is exactly 0 for every KL weight. -/
theorem ACT_zero_loss_scenario (L : ℕ) (actions : Fin 2 → Fin 5 → Fin 3 → ℝ)
    (w : ℝ) :
    reconstruction_loss 2 5 3 actions actions (fun _ _ => false) = 0 ∧
    (kl_divergence 2 L (fun _ _ => 0) (fun _ _ => 0)).1 = 0 ∧
    (compute_losses w (kl_divergence 2 L (fun _ _ => 0) (fun _ _ => 0)).1
      (reconstruction_loss 2 5 3 actions actions (fun _ _ => false))).2.2 = 0 := by
  have h1 : reconstruction_loss 2 5 3 actions actions (fun _ _ => false) = 0 := by
    simp [reconstruction_loss]
  exact ⟨h1, kl_total_zero 2 L, by simp [compute_losses, h1, kl_total_zero 2 L]⟩
